import Mathlib

/-!
Shallow embedding of the user-management service (`app/main.py`,
`app/models.py`, `app/schemas.py`) and of the arithmetic factory exercised
by `tests/test_integration.py`.

The database is modelled as an insertion-ordered list of `User` rows; the
storage layer's unique-index enforcement surfaces as an `IntegrityError`
carrying a driver-produced message string, which the handlers classify by
substring inspection exactly as the Python code does
(`if "username" in str(e): ... elif "email" in str(e): ...`).
Mutating handlers return the response together with the database state the
caller continues with; a rollback is returning the original state.
-/

/-- A row of the `users` table (`app/models.py`, class `User`):
UUID primary key (kept as a string), unique `username`, unique `email`,
`password_hash`, and a server-set `created_at` timestamp (opaque, as `Nat`). -/
structure User where
  id : String
  username : String
  email : String
  password_hash : String
  created_at : Nat
  deriving Repr, DecidableEq

/-- The response schema (`app/schemas.py`, class `UserRead`): exactly the
fields `id`, `username`, `email`, `created_at`; `password_hash` has no field. -/
structure UserRead where
  id : String
  username : String
  email : String
  created_at : Nat
  deriving Repr, DecidableEq

/-- Build the response from the ORM row by copying the schema's fields
(the schema's `from_attributes` configuration). -/
def toUserRead (u : User) : UserRead :=
  ⟨u.id, u.username, u.email, u.created_at⟩

/-- JSON serialization of a `UserRead` response body as key/value pairs,
following the schema's field list. -/
def userRead_fields (r : UserRead) : List (String × String) :=
  [("id", r.id), ("username", r.username), ("email", r.email),
   ("created_at", toString r.created_at)]

/-- Request schema for `POST /users` (`app/schemas.py`, class `UserCreate`). -/
structure UserCreate where
  username : String
  email : String
  password : String
  deriving Repr, DecidableEq

/-- The length bounds `UserCreate` imposes (username 3..50 characters,
password 8..100 characters); email syntax checking is delegated to the
external `EmailStr` validator and not re-modelled. -/
def UserCreate.valid (d : UserCreate) : Prop :=
  3 ≤ d.username.length ∧ d.username.length ≤ 50 ∧
    8 ≤ d.password.length ∧ d.password.length ≤ 100

/-- Request schema for `PUT /users/{user_id}` (`app/schemas.py`,
class `UserUpdate`): both fields optional, `None` meaning "not supplied". -/
structure UserUpdate where
  username : Option String
  email : Option String
  deriving Repr, DecidableEq

/-- Mirror of `fastapi.HTTPException`: a status code and a detail message. -/
structure HTTPException where
  status_code : Nat
  detail : String
  deriving Repr, DecidableEq

/-- Does the character list `s` start with the character list `pat`? -/
def charsStartWith : List Char → List Char → Bool
  | _, [] => true
  | [], _ :: _ => false
  | c :: cs, d :: ds => c == d && charsStartWith cs ds

/-- Does the character list `s` contain `pat` as a contiguous run? -/
def charsContain : List Char → List Char → Bool
  | [], pat => charsStartWith [] pat
  | c :: cs, pat => charsStartWith (c :: cs) pat || charsContain cs pat

/-- Python's `needle in haystack` on strings: substring containment. -/
def pyIn (needle haystack : String) : Bool :=
  charsContain haystack.data needle.data

/-- The `except IntegrityError` branch of `create_user`
(`app/main.py` lines 64-79): classify the stringified storage error,
username first, then email, else a generic 400 response. -/
def create_conflict_response (e : String) : HTTPException :=
  if pyIn "username" e then ⟨409, "Username already exists"⟩
  else if pyIn "email" e then ⟨409, "Email already exists"⟩
  else ⟨400, "User creation failed due to data conflict"⟩

/-- The `except IntegrityError` branch of `update_user`
(`app/main.py` lines 130-145): same classification, different generic detail. -/
def update_conflict_response (e : String) : HTTPException :=
  if pyIn "username" e then ⟨409, "Username already exists"⟩
  else if pyIn "email" e then ⟨409, "Email already exists"⟩
  else ⟨400, "Update failed due to data conflict"⟩

/-- The storage layer committing an INSERT of `u`: the unique indexes on
`username` and `email` (`app/models.py`) reject a duplicate with an
`IntegrityError` whose driver-produced text names the violated column;
otherwise the row is appended. -/
def db_insert (db : List User) (u : User) : Except String (List User) :=
  if db.any (fun v => v.username == u.username) then
    .error "UNIQUE constraint failed: users.username"
  else if db.any (fun v => v.email == u.email) then
    .error "UNIQUE constraint failed: users.email"
  else .ok (db ++ [u])

/-- The storage layer committing an UPDATE that rewrites the row with
primary key `u.id` to `u`: the unique indexes reject the write when a
different row already holds the new `username` or `email`. -/
def db_update_commit (db : List User) (u : User) : Except String (List User) :=
  if db.any (fun v => v.id != u.id && v.username == u.username) then
    .error "UNIQUE constraint failed: users.username"
  else if db.any (fun v => v.id != u.id && v.email == u.email) then
    .error "UNIQUE constraint failed: users.email"
  else .ok (db.map (fun v => if v.id == u.id then u else v))

/-- Handler for `POST /users` (`app/main.py` lines 35-79). The framework supplies a
fresh UUID (`fresh_id`), the server clock supplies `now`, and
`app.security.hash_password` is abstract (`hash`). On `IntegrityError`
the transaction is rolled back (original `db` returned) and the error
classified. Success is serialized with status 201. -/
def create_user (db : List User) (user_data : UserCreate)
    (hash : String → String) (fresh_id : String) (now : Nat) :
    Except HTTPException UserRead × List User :=
  let db_user : User :=
    ⟨fresh_id, user_data.username, user_data.email, hash user_data.password, now⟩
  match db_insert db db_user with
  | .ok db2 => (.ok (toUserRead db_user), db2)
  | .error e => (.error (create_conflict_response e), db)

/-- Handler for `GET /users/{user_id}` (`app/main.py` lines 82-91): first row
whose id matches, else 404. Read-only. -/
def get_user (db : List User) (user_id : String) : Except HTTPException UserRead :=
  match db.find? (fun u => u.id == user_id) with
  | none => .error ⟨404, "User not found"⟩
  | some u => .ok (toUserRead u)

/-- Default value of the `skip` query parameter of `GET /users`. -/
def DEFAULT_SKIP : Nat := 0

/-- Default value of the `limit` query parameter of `GET /users`. -/
def DEFAULT_LIMIT : Nat := 10

/-- Handler for `GET /users` (`app/main.py` lines 94-103):
`db.query(User).offset(skip).limit(limit).all()` over the
insertion-ordered table. -/
def list_users (db : List User) (skip : Nat) (limit : Nat) : List UserRead :=
  ((db.drop skip).take limit).map toUserRead

/-- Lines 120-124 of `update_user`: assign each field only when supplied. -/
def apply_update (u : User) (d : UserUpdate) : User :=
  { u with
    username := d.username.getD u.username,
    email := d.email.getD u.email }

/-- Handler for `PUT /users/{user_id}` (`app/main.py` lines 106-145): 404 when the id is
absent; otherwise overwrite only the supplied fields and commit, rolling
back and classifying on `IntegrityError`. Success is serialized with
status 200. -/
def update_user (db : List User) (user_id : String) (user_data : UserUpdate) :
    Except HTTPException UserRead × List User :=
  match db.find? (fun u => u.id == user_id) with
  | none => (.error ⟨404, "User not found"⟩, db)
  | some u =>
    let u2 := apply_update u user_data
    match db_update_commit db u2 with
    | .ok db2 => (.ok (toUserRead u2), db2)
    | .error e => (.error (update_conflict_response e), db)

/-- Handler for `DELETE /users/{user_id}` (`app/main.py` lines 148-159): 404 when the id
is absent; otherwise remove the row with that primary key (204, no body). -/
def delete_user (db : List User) (user_id : String) :
    Except HTTPException Unit × List User :=
  match db.find? (fun u => u.id == user_id) with
  | none => (.error ⟨404, "User not found"⟩, db)
  | some u => (.ok (), db.filter (fun v => !(v.id == u.id)))

/-- Handler for `POST /verify-password` (`app/main.py` lines 162-182): look the user up
by `username` (not id); 404 when absent, 401 when
`verify_password password user.password_hash` is false, else the success
message. `verify_password` itself lives in `app.security`, absent from the
tree; the spec (§4.1) treats it as an opaque predicate, so it is a
parameter here. -/
def verify_user_password (verify_password : String → String → Bool)
    (db : List User) (username password : String) :
    Except HTTPException String :=
  match db.find? (fun u => u.username == username) with
  | none => .error ⟨404, "User not found"⟩
  | some u =>
    if !(verify_password password u.password_hash) then
      .error ⟨401, "Invalid password"⟩
    else .ok "Password verified successfully"

/-- Modelled from the spec: `app/factory.py` (class `CalculationFactory`) is
absent from the source tree; §4.2 gives `calculate` the semantics
Add → a+b, Subtract → a-b, Multiply → a*b, Divide → a/b, and an
`InvalidOperation` failure on an unknown operation name. Operands are
modelled as rationals. -/
def CalculationFactory.calculate (operation : String) (a b : ℚ) :
    Except String ℚ :=
  if operation == "Add" then .ok (a + b)
  else if operation == "Subtract" then .ok (a - b)
  else if operation == "Multiply" then .ok (a * b)
  else if operation == "Divide" then .ok (a / b)
  else .error "InvalidOperation"

/-- Well-formedness the storage layer's constraints maintain: primary keys,
usernames and emails are pairwise distinct across stored rows. -/
def dbWF (db : List User) : Prop :=
  db.Pairwise (fun a b => a.id ≠ b.id ∧ a.username ≠ b.username ∧ a.email ≠ b.email)

/-!
Theorems about the embedded handlers, one per claim, with closed witnesses
instantiating the hypothesised ones.
-/

/-- C1: for every uniqueness violation raised by the storage layer during
Create or Update, the handler classifies the conflict in a fixed order:
an error mentioning `username` reports a username conflict, otherwise one
mentioning `email` reports an email conflict, otherwise a generic conflict;
an error matching both reports only the username conflict. -/
theorem conflict_classification_order (e : String) :
    (pyIn "username" e = true →
      create_conflict_response e = ⟨409, "Username already exists"⟩ ∧
      update_conflict_response e = ⟨409, "Username already exists"⟩) ∧
    (pyIn "username" e = false → pyIn "email" e = true →
      create_conflict_response e = ⟨409, "Email already exists"⟩ ∧
      update_conflict_response e = ⟨409, "Email already exists"⟩) ∧
    (pyIn "username" e = false → pyIn "email" e = false →
      create_conflict_response e = ⟨400, "User creation failed due to data conflict"⟩ ∧
      update_conflict_response e = ⟨400, "Update failed due to data conflict"⟩) := by
  refine ⟨fun h1 => ?_, fun h1 h2 => ?_, fun h1 h2 => ?_⟩ <;>
    simp [create_conflict_response, update_conflict_response, h1]
  · simp [h2]
  · simp [h2]

/-- Closed instance of `conflict_classification_order`: an error text naming
both constraints is reported as a username conflict only. -/
theorem conflict_classification_order_witness :
    create_conflict_response "users.username and users.email both violated" =
      ⟨409, "Username already exists"⟩ ∧
    update_conflict_response "users.username and users.email both violated" =
      ⟨409, "Username already exists"⟩ :=
  (conflict_classification_order "users.username and users.email both violated").1
    (by decide)

/-- C2 counterexample: a uniqueness violation whose stringified error names
neither constraint is answered with status 400, not 409. -/
theorem unidentified_conflict_is_400 :
    (create_conflict_response "UNIQUE constraint failed").status_code = 400 ∧
    (create_conflict_response "UNIQUE constraint failed").status_code ≠ 409 ∧
    (update_conflict_response "UNIQUE constraint failed").status_code = 400 ∧
    (update_conflict_response "UNIQUE constraint failed").status_code ≠ 409 := by
  decide

/-- C2 amended: a uniqueness violation identified as a username or email
conflict is reported with 409 on both Create and Update; one where neither
constraint can be identified is reported with 400. -/
theorem conflict_status_codes (e : String) :
    ((pyIn "username" e || pyIn "email" e) = true →
      (create_conflict_response e).status_code = 409 ∧
      (update_conflict_response e).status_code = 409) ∧
    ((pyIn "username" e || pyIn "email" e) = false →
      (create_conflict_response e).status_code = 400 ∧
      (update_conflict_response e).status_code = 400) := by
  constructor
  · intro h
    rcases Bool.or_eq_true_iff.mp h with h1 | h1 <;>
      simp [create_conflict_response, update_conflict_response, h1] <;>
      by_cases h2 : pyIn "username" e = true <;> simp [h2]
  · intro h
    have h1 : pyIn "username" e = false := by
      cases hb : pyIn "username" e <;> simp [hb] at h ⊢
    have h2 : pyIn "email" e = false := by
      cases hb : pyIn "email" e <;> simp [hb] at h ⊢
    simp [create_conflict_response, update_conflict_response, h1, h2]

/-- Closed instance of `conflict_status_codes`: an identified username
violation gets 409. -/
theorem conflict_status_codes_witness :
    (create_conflict_response "duplicate key: users.username").status_code = 409 ∧
    (update_conflict_response "duplicate key: users.username").status_code = 409 :=
  (conflict_status_codes "duplicate key: users.username").1 (by decide)

/-- C5: every user-shaped response body serializes exactly the fields
`id`, `username`, `email`, `created_at` and never `password_hash`; in
particular every successful Get-by-id body has this shape. -/
theorem userRead_never_exposes_password_hash (r : UserRead) :
    (userRead_fields r).map Prod.fst = ["id", "username", "email", "created_at"] ∧
    "password_hash" ∉ (userRead_fields r).map Prod.fst ∧
    (∀ db uid r2, get_user db uid = .ok r2 →
      (userRead_fields r2).map Prod.fst = ["id", "username", "email", "created_at"]) := by
  have hk : (userRead_fields r).map Prod.fst =
      ["id", "username", "email", "created_at"] := rfl
  refine ⟨hk, ?_, fun db uid r2 _ => rfl⟩
  rw [hk]
  decide

/-- Closed instance of `userRead_never_exposes_password_hash` at a concrete
response obtained from a concrete Get-by-id. -/
theorem userRead_never_exposes_password_hash_witness :
    (userRead_fields ⟨"u1", "bob", "bob@x.com", 0⟩).map Prod.fst =
      ["id", "username", "email", "created_at"] :=
  (userRead_never_exposes_password_hash ⟨"u1", "bob", "bob@x.com", 0⟩).2.2
    [⟨"u1", "bob", "bob@x.com", "h", 0⟩] "u1" ⟨"u1", "bob", "bob@x.com", 0⟩ rfl

/-- C9: the arithmetic factory's `calculate` returns a+b, a-b, a*b, a/b for
the four operation names; `calculate "Add" (-10.5) (-5.5)` is `-16` and
`calculate "Divide" 10 3` is within `1e-4` of `3.3333333333333335`. -/
theorem calculate_semantics (a b : ℚ) :
    CalculationFactory.calculate "Add" a b = .ok (a + b) ∧
    CalculationFactory.calculate "Subtract" a b = .ok (a - b) ∧
    CalculationFactory.calculate "Multiply" a b = .ok (a * b) ∧
    CalculationFactory.calculate "Divide" a b = .ok (a / b) ∧
    CalculationFactory.calculate "Add" (-21/2) (-11/2) = .ok (-16) ∧
    ∃ r : ℚ, CalculationFactory.calculate "Divide" 10 3 = .ok r ∧
      |r - 33333333333333335 / 10000000000000000| < 1 / 10000 := by
  refine ⟨rfl, rfl, rfl, rfl, ?_, ⟨10 / 3, rfl, ?_⟩⟩
  · show Except.ok ((-21 / 2 : ℚ) + (-11 / 2)) = Except.ok (-16)
    norm_num
  · rw [abs_sub_lt_iff]
    norm_num

/-- C6: Get-by-id, Update and Delete on an identifier absent from the store
all fail with a 404 `User not found` and leave the stored rows unchanged. -/
theorem absent_id_404_state_unchanged (db : List User) (uid : String)
    (d : UserUpdate) (h : db.find? (fun u => u.id == uid) = none) :
    get_user db uid = .error ⟨404, "User not found"⟩ ∧
    update_user db uid d = (.error ⟨404, "User not found"⟩, db) ∧
    delete_user db uid = (.error ⟨404, "User not found"⟩, db) := by
  refine ⟨?_, ?_, ?_⟩ <;> simp [get_user, update_user, delete_user, h]

/-- Closed instance of `absent_id_404_state_unchanged` on the empty store. -/
theorem absent_id_404_state_unchanged_witness :
    get_user [] "missing" = .error ⟨404, "User not found"⟩ ∧
    update_user [] "missing" ⟨none, none⟩ = (.error ⟨404, "User not found"⟩, []) ∧
    delete_user [] "missing" = (.error ⟨404, "User not found"⟩, []) :=
  absent_id_404_state_unchanged [] "missing" ⟨none, none⟩ rfl

/-- C7: VerifyPassword looks the user up by username and has exactly three
outcomes: 404 when no row carries the username, 401 when the password does
not verify against the stored hash, success otherwise. -/
theorem verify_password_trichotomy (vp : String → String → Bool)
    (db : List User) (un pw : String) :
    (db.find? (fun v => v.username == un) = none →
      verify_user_password vp db un pw = .error ⟨404, "User not found"⟩) ∧
    (∀ u, db.find? (fun v => v.username == un) = some u →
      vp pw u.password_hash = false →
      verify_user_password vp db un pw = .error ⟨401, "Invalid password"⟩) ∧
    (∀ u, db.find? (fun v => v.username == un) = some u →
      vp pw u.password_hash = true →
      verify_user_password vp db un pw = .ok "Password verified successfully") := by
  refine ⟨fun h => ?_, fun u h hv => ?_, fun u h hv => ?_⟩ <;>
    simp [verify_user_password, h]
  · simp [hv]
  · simp [hv]

/-- Closed instance of `verify_password_trichotomy`: a matching password on
a stored user verifies successfully. -/
theorem verify_password_trichotomy_witness :
    verify_user_password (fun p h => p == h)
      [⟨"i1", "alice", "alice@x.com", "secret12", 0⟩] "alice" "secret12" =
      .ok "Password verified successfully" :=
  (verify_password_trichotomy (fun p h => p == h)
      [⟨"i1", "alice", "alice@x.com", "secret12", 0⟩] "alice" "secret12").2.2
    ⟨"i1", "alice", "alice@x.com", "secret12", 0⟩ rfl rfl

/-- C8: List(skip, limit) is the page skipping the first `skip` stored rows
and returning at most `limit` of the rest, with defaults skip=0, limit=10;
an empty store lists as empty, and a store of 5 users lists 2 rows under
limit=2 and all 5 under limit=10. -/
theorem list_users_pagination (db : List User) (s l : Nat) :
    (list_users db s l).length = min l (db.length - s) ∧
    (∀ i, i < l → (list_users db s l)[i]? = (db[s + i]?).map toUserRead) ∧
    list_users [] s l = [] ∧
    DEFAULT_SKIP = 0 ∧ DEFAULT_LIMIT = 10 ∧
    (db.length = 5 →
      (list_users db DEFAULT_SKIP 2).length = 2 ∧
      (list_users db DEFAULT_SKIP DEFAULT_LIMIT).length = 5) := by
  refine ⟨?_, fun i hi => ?_, ?_, rfl, rfl, fun h5 => ?_⟩
  · simp [list_users, List.length_take, List.length_drop]
  · simp [list_users, List.getElem?_map, List.getElem?_take, hi, List.getElem?_drop]
  · simp [list_users]
  · constructor <;>
      simp [list_users, DEFAULT_SKIP, DEFAULT_LIMIT, List.length_take,
        List.length_drop, h5]

/-- Closed instance of `list_users_pagination` on a store of 5 users. -/
theorem list_users_pagination_witness :
    (list_users
        [⟨"1", "a1", "e1", "h", 0⟩, ⟨"2", "a2", "e2", "h", 0⟩, ⟨"3", "a3", "e3", "h", 0⟩,
         ⟨"4", "a4", "e4", "h", 0⟩, ⟨"5", "a5", "e5", "h", 0⟩] DEFAULT_SKIP 2).length = 2 ∧
    (list_users
        [⟨"1", "a1", "e1", "h", 0⟩, ⟨"2", "a2", "e2", "h", 0⟩, ⟨"3", "a3", "e3", "h", 0⟩,
         ⟨"4", "a4", "e4", "h", 0⟩, ⟨"5", "a5", "e5", "h", 0⟩] DEFAULT_SKIP DEFAULT_LIMIT).length = 5 :=
  (list_users_pagination
      [⟨"1", "a1", "e1", "h", 0⟩, ⟨"2", "a2", "e2", "h", 0⟩, ⟨"3", "a3", "e3", "h", 0⟩,
       ⟨"4", "a4", "e4", "h", 0⟩, ⟨"5", "a5", "e5", "h", 0⟩] 0 2).2.2.2.2.2 rfl

/-- A successful update commit rewrites exactly the row with the updated
primary key. -/
theorem db_update_commit_ok (db : List User) (u : User) (db2 : List User)
    (h : db_update_commit db u = .ok db2) :
    db2 = db.map (fun v => if v.id == u.id then u else v) := by
  unfold db_update_commit at h
  split at h
  · simp at h
  · split at h
    · simp at h
    · simpa using h.symm

/-- C3: a successful Update changes only the supplied fields of the target
row: omitted username/email keep their current values, `password_hash` and
`created_at` are never changed, and every other row is untouched. -/
theorem update_changes_only_supplied_fields (db : List User) (uid : String)
    (d : UserUpdate) (u : User) (r : UserRead) (db2 : List User)
    (hu : db.find? (fun v => v.id == uid) = some u)
    (hok : update_user db uid d = (.ok r, db2)) :
    (∀ v ∈ db2, v.id = u.id →
      v.password_hash = u.password_hash ∧ v.created_at = u.created_at ∧
      (d.username = none → v.username = u.username) ∧
      (d.email = none → v.email = u.email)) ∧
    (∀ v ∈ db2, v.id ≠ u.id → v ∈ db) ∧
    (d.username = none → r.username = u.username) ∧
    (d.email = none → r.email = u.email) ∧
    r.created_at = u.created_at := by
  unfold update_user at hok
  rw [hu] at hok
  dsimp only at hok
  rcases hcm : db_update_commit db (apply_update u d) with e | db3 <;>
    rw [hcm] at hok
  · simp at hok
  · simp only [Prod.mk.injEq, Except.ok.injEq] at hok
    obtain ⟨hr, hdb⟩ := hok
    have hmap := db_update_commit_ok db (apply_update u d) db3 hcm
    rw [← hdb, hmap]
    subst hmap
    have hid : (apply_update u d).id = u.id := rfl
    have hph : (apply_update u d).password_hash = u.password_hash := rfl
    have hca : (apply_update u d).created_at = u.created_at := rfl
    have husr : d.username = none → (apply_update u d).username = u.username := by
      intro hn; simp [apply_update, hn]
    have heml : d.email = none → (apply_update u d).email = u.email := by
      intro hn; simp [apply_update, hn]
    refine ⟨?_, ?_, ?_, ?_, ?_⟩
    · intro v hv hvid
      obtain ⟨v0, hv0, rfl⟩ := List.mem_map.mp hv
      by_cases hc : v0.id = u.id
      · simp only [hid, beq_iff_eq, hc, if_pos]
        exact ⟨hph, hca, husr, heml⟩
      · simp [hid, hc] at hvid
    · intro v hv hvne
      obtain ⟨v0, hv0, rfl⟩ := List.mem_map.mp hv
      by_cases hc : v0.id = u.id
      · simp only [hid, beq_iff_eq, hc, if_pos] at hvne
        exact absurd hid hvne
      · simpa [hid, beq_iff_eq, hc] using hv0
    · intro hn; rw [← hr]; exact husr hn
    · intro hn; rw [← hr]; exact heml hn
    · rw [← hr]; exact hca

/-- Closed instance of `update_changes_only_supplied_fields`: updating only
the email leaves username, password_hash and created_at of the stored row
as they were. -/
theorem update_changes_only_supplied_fields_witness :
    (⟨"i1", "bob", "c@x.com", "h", 7⟩ : User).password_hash = "h" ∧
    (⟨"i1", "bob", "c@x.com", "h", 7⟩ : User).created_at = 7 ∧
    (⟨"i1", "bob", "c@x.com", "h", 7⟩ : User).username = "bob" := by
  have h := (update_changes_only_supplied_fields [⟨"i1", "bob", "b@x.com", "h", 7⟩] "i1"
      ⟨none, some "c@x.com"⟩ ⟨"i1", "bob", "b@x.com", "h", 7⟩ ⟨"i1", "bob", "c@x.com", 7⟩
      [⟨"i1", "bob", "c@x.com", "h", 7⟩] rfl rfl).1
      ⟨"i1", "bob", "c@x.com", "h", 7⟩ (by simp) rfl
  exact ⟨h.1, h.2.1, h.2.2.1 rfl⟩

/-- C4: a Create accepted with a fresh identifier persists exactly one new
row, and Get-by-id with the returned identifier yields a record whose
username and email are the supplied ones, carrying the generated id and
created_at. -/
theorem create_then_get (db : List User) (data : UserCreate)
    (hash : String → String) (fid : String) (now : Nat)
    (hvalid : data.valid)
    (hfresh : ∀ v ∈ db, v.id ≠ fid)
    (hu : db.any (fun v => v.username == data.username) = false)
    (he : db.any (fun v => v.email == data.email) = false) :
    create_user db data hash fid now =
      (.ok ⟨fid, data.username, data.email, now⟩,
        db ++ [⟨fid, data.username, data.email, hash data.password, now⟩]) ∧
    get_user (db ++ [⟨fid, data.username, data.email, hash data.password, now⟩]) fid =
      .ok ⟨fid, data.username, data.email, now⟩ := by
  constructor
  · unfold create_user
    dsimp only
    unfold db_insert
    rw [if_neg (by simp [hu]), if_neg (by simp [he])]
    rfl
  · unfold get_user
    rw [List.find?_append]
    have h1 : db.find? (fun v => v.id == fid) = none :=
      List.find?_eq_none.mpr (fun x hx => by simp [hfresh x hx])
    rw [h1]
    simp [List.find?, toUserRead]

/-- Closed instance of `create_then_get` on the empty store. -/
theorem create_then_get_witness :
    create_user [] ⟨"bob", "bob@x.com", "secret123"⟩ (fun p => String.append p "#h")
        "u1" 5 =
      (.ok ⟨"u1", "bob", "bob@x.com", 5⟩,
        [⟨"u1", "bob", "bob@x.com", "secret123#h", 5⟩]) ∧
    get_user [⟨"u1", "bob", "bob@x.com", "secret123#h", 5⟩] "u1" =
      .ok ⟨"u1", "bob", "bob@x.com", 5⟩ :=
  create_then_get [] ⟨"bob", "bob@x.com", "secret123"⟩ (fun p => String.append p "#h")
    "u1" 5 (by refine ⟨?_, ?_, ?_, ?_⟩ <;> decide) (by simp) rfl rfl

/-- C10: an Update whose body supplies neither field succeeds and is an
identity operation on a well-formed store: it returns the target row's
current data (serialized with status 200) and changes nothing. -/
theorem update_empty_body_identity (db : List User) (uid : String) (u : User)
    (hwf : dbWF db) (hu : db.find? (fun v => v.id == uid) = some u) :
    update_user db uid ⟨none, none⟩ = (.ok (toUserRead u), db) := by
  have humem : u ∈ db := List.mem_of_find?_eq_some hu
  have hsymm : Symmetric (fun a b : User =>
      a.id ≠ b.id ∧ a.username ≠ b.username ∧ a.email ≠ b.email) :=
    fun a b h => ⟨h.1.symm, h.2.1.symm, h.2.2.symm⟩
  have hall := List.Pairwise.forall hsymm hwf
  have happ : apply_update u ⟨none, none⟩ = u := rfl
  have hany1 : db.any (fun v => v.id != u.id && v.username == u.username) = false := by
    rw [List.any_eq_false]
    intro v hv
    by_cases hvu : v = u
    · subst hvu; simp
    · have hR := hall hv humem hvu
      simp [hR.2.1]
  have hany2 : db.any (fun v => v.id != u.id && v.email == u.email) = false := by
    rw [List.any_eq_false]
    intro v hv
    by_cases hvu : v = u
    · subst hvu; simp
    · have hR := hall hv humem hvu
      simp [hR.2.2]
  have hmap : db.map (fun v => if v.id == u.id then u else v) = db := by
    have hpt : ∀ v ∈ db, (if v.id == u.id then u else v) = id v := by
      intro v hv
      by_cases hvu : v = u
      · subst hvu; simp
      · have hR := hall hv humem hvu
        simp [hR.1]
    rw [List.map_congr_left hpt, List.map_id]
  unfold update_user
  rw [hu]
  dsimp only
  rw [happ]
  unfold db_update_commit
  rw [if_neg (by simp [hany1]), if_neg (by simp [hany2]), hmap]

/-- Closed instance of `update_empty_body_identity` on a one-row store. -/
theorem update_empty_body_identity_witness :
    update_user [⟨"i1", "bob", "bob@x.com", "h", 3⟩] "i1" ⟨none, none⟩ =
      (.ok ⟨"i1", "bob", "bob@x.com", 3⟩, [⟨"i1", "bob", "bob@x.com", "h", 3⟩]) :=
  update_empty_body_identity [⟨"i1", "bob", "bob@x.com", "h", 3⟩] "i1"
    ⟨"i1", "bob", "bob@x.com", "h", 3⟩ (List.pairwise_singleton _ _) rfl
